import Mathlib

/-!
Verification of the RPN (Reverse Polish Notation) evaluator of
`programme_druide.py`.

Shallow embedding choices:
* Python floats are modelled as exact rationals (`ℚ`).  Every numeric literal
  appearing in the specified behaviours (small integers, `3.5`, …) is exactly
  representable in IEEE-754 double precision, and the arithmetic of the
  specified examples is exact, so the rational model agrees with the Python
  behaviour on all of them.
* Python's `float(token)` literal grammar is modelled by `parsePyFloat`: an
  optional leading sign, a decimal mantissa (digits, optionally with one
  decimal point, at least one digit overall), and an optional exponent part
  (`e`/`E`, optional sign, at least one digit).  The non-finite literals
  (`inf`, `nan`), digit-group underscores and surrounding whitespace accepted
  by CPython have no exact-rational meaning or cannot occur in
  whitespace-split tokens, and are outside the modelled grammar.
* The exceptions raised by the program are modelled by the inductive `RPNErr`;
  `excClassOf` records which Python exception *class* each raise site uses
  (the base `RPNError` or one of its three subclasses).
* The evaluator's `for` loop is modelled by `evalLoop` / `stepTok`, which
  return, on failure, the error together with the stack contents at the
  moment the exception is raised; `evaluate_rpn` packages the loop with the
  final stack check exactly as the Python function does.  The head of the
  modelled stack list is the stack's top (the tail of the Python list).
-/

/-- The four binary operator symbols of the `OPERATORS` dictionary. -/
inductive Op
  | add
  | sub
  | mul
  | div
deriving DecidableEq, Repr

/-- The classified evaluation failures of the program.  Each constructor is a
raise site of `evaluate_rpn` / `op_divide`, carrying the data interpolated
into the exception message. -/
inductive RPNErr
  | insufficientOperands (token : String) (idx : Nat)
  | divisionByZero
  | invalidToken (token : String) (idx : Nat)
  | emptyExpression
  | malformedExpression (count : Nat)
deriving DecidableEq, Repr

/-- The Python exception classes of the program: the base `RPNError` and its
three subclasses. -/
inductive ExcClass
  | rpnError
  | insufficientOperandsError
  | divisionByZeroError
  | invalidTokenError
deriving DecidableEq, Repr

/-- The Python exception class used at each raise site: the three specific
errors use their own subclass; the empty-expression and malformed-expression
checks raise the base `RPNError` directly. -/
def excClassOf : RPNErr → ExcClass
  | .insufficientOperands _ _ => .insufficientOperandsError
  | .divisionByZero => .divisionByZeroError
  | .invalidToken _ _ => .invalidTokenError
  | .emptyExpression => .rpnError
  | .malformedExpression _ => .rpnError

/-- Longest digit chunk at the front of a character list, with the rest. -/
def takeDigits : List Char → List Char × List Char
  | [] => ([], [])
  | c :: cs =>
    if c.isDigit then
      let p := takeDigits cs
      (c :: p.1, p.2)
    else ([], c :: cs)

/-- Value of a digit list read left to right, most significant first. -/
def digitsToNat (acc : Nat) : List Char → Nat
  | [] => acc
  | c :: cs => digitsToNat (acc * 10 + (c.toNat - 48)) cs

/-- Exponent part of a float literal: either nothing (exponent 0) or
`e`/`E`, an optional sign and a nonempty digit string, consuming the whole
remaining input. -/
def parseExpPart : List Char → Option ℤ
  | [] => some 0
  | c :: cs =>
    if c = 'e' ∨ c = 'E' then
      match cs with
      | '+' :: ds =>
        if ds ≠ [] ∧ ds.all Char.isDigit then some (digitsToNat 0 ds) else none
      | '-' :: ds =>
        if ds ≠ [] ∧ ds.all Char.isDigit then some (-(digitsToNat 0 ds : ℤ)) else none
      | ds =>
        if ds ≠ [] ∧ ds.all Char.isDigit then some (digitsToNat 0 ds) else none
    else none

/-- Mantissa of a float literal: digits with an optional single decimal point,
at least one digit overall.  Returns the digits' value, the number of digits
after the point, and the unconsumed rest. -/
def parseMantissaParts (cs : List Char) : Option (Nat × Nat × List Char) :=
  let p := takeDigits cs
  match p.2 with
  | '.' :: r2 =>
    let q := takeDigits r2
    if p.1 = [] ∧ q.1 = [] then none
    else some (digitsToNat 0 (p.1 ++ q.1), q.1.length, q.2)
  | _ => if p.1 = [] then none else some (digitsToNat 0 p.1, 0, p.2)

/-- Decidable front end of the float-literal grammar: sign, mantissa digit
value, number of fractional digits, and exponent. -/
def parsePyFloatParts (s : String) : Option (Bool × Nat × Nat × ℤ) :=
  let body : Bool × List Char :=
    match s.data with
    | '+' :: r => (false, r)
    | '-' :: r => (true, r)
    | r => (false, r)
  match parseMantissaParts body.2 with
  | none => none
  | some m =>
    match parseExpPart m.2.2 with
    | none => none
    | some e => some (body.1, m.1, m.2.1, e)

/-- Ten to an integer power, as a rational. -/
def tenZPow (e : ℤ) : ℚ :=
  if 0 ≤ e then (10 : ℚ) ^ e.toNat else 1 / (10 : ℚ) ^ (-e).toNat

/-- Rational value of a parsed literal:
`sign * mantissa / 10 ^ fracLen * 10 ^ exponent`. -/
def partsToRat (p : Bool × Nat × Nat × ℤ) : ℚ :=
  (if p.1 then -(p.2.1 : ℚ) else (p.2.1 : ℚ)) / (10 : ℚ) ^ p.2.2.1 * tenZPow p.2.2.2

/-- Exact-rational model of Python's `float(token)` on the modelled literal
grammar: `none` when `float` would raise `ValueError`. -/
def parsePyFloat (s : String) : Option ℚ :=
  (parsePyFloatParts s).map partsToRat

/-- Model of `is_number`: `float(token)` succeeds (the `ValueError` is caught
and turned into `False`). -/
def is_number (token : String) : Bool :=
  (parsePyFloat token).isSome

/-- Model of `op_add`. -/
def op_add (a b : ℚ) : ℚ := a + b

/-- Model of `op_subtract`. -/
def op_subtract (a b : ℚ) : ℚ := a - b

/-- Model of `op_multiply`. -/
def op_multiply (a b : ℚ) : ℚ := a * b

/-- Model of `op_divide`: raises `DivisionByZeroError` when `b == 0`. -/
def op_divide (a b : ℚ) : Except RPNErr ℚ :=
  if b = 0 then .error .divisionByZero else .ok (a / b)

/-- Model of the `OPERATORS` dictionary: lookup of a token among the four
operator symbols. -/
def OPERATORS (t : String) : Option Op :=
  if t = "+" then some .add
  else if t = "-" then some .sub
  else if t = "*" then some .mul
  else if t = "/" then some .div
  else none

/-- Dispatch through the `OPERATORS` dictionary to the operation functions. -/
def applyOpE : Op → ℚ → ℚ → Except RPNErr ℚ
  | .add, a, b => .ok (op_add a b)
  | .sub, a, b => .ok (op_subtract a b)
  | .mul, a, b => .ok (op_multiply a b)
  | .div, a, b => op_divide a b

/-- The mathematical (total) value of one operator application; agrees with
`applyOpE` whenever the division guard is satisfied. -/
def applyOp : Op → ℚ → ℚ → ℚ
  | .add, a, b => op_add a b
  | .sub, a, b => op_subtract a b
  | .mul, a, b => op_multiply a b
  | .div, a, b => a / b

/-- One iteration of the evaluator's `for` loop on token `t` at position
`idx`: either the new stack, or the raised error with the stack contents at
the raise point. -/
def stepTok (idx : Nat) (t : String) (stack : List ℚ) :
    Except (RPNErr × List ℚ) (List ℚ) :=
  if t = "" then .ok stack
  else
    match parsePyFloat t with
    | some v => .ok (v :: stack)
    | none =>
      match OPERATORS t with
      | some o =>
        match stack with
        | b :: a :: s =>
          match applyOpE o a b with
          | .ok r => .ok (r :: s)
          | .error e => .error (e, s)
        | _ => .error (.insufficientOperands t idx, stack)
      | none => .error (.invalidToken t idx, stack)

/-- Outcome of the whole `for` loop: the final stack, or the raised error
with the stack at the raise point. -/
inductive LoopResult
  | done (stack : List ℚ)
  | failed (e : RPNErr) (stack : List ℚ)
deriving DecidableEq, Repr

/-- The evaluator's `for idx, token in enumerate(tokens)` loop. -/
def evalLoop : Nat → List String → List ℚ → LoopResult
  | _, [], stack => .done stack
  | idx, t :: rest, stack =>
    match stepTok idx t stack with
    | .ok s2 => evalLoop (idx + 1) rest s2
    | .error p => .failed p.1 p.2

/-- The final stack check of `evaluate_rpn`: empty-stack and leftover-values
failures, else the single remaining value. -/
def finalize : LoopResult → Except RPNErr ℚ
  | .failed e _ => .error e
  | .done stack =>
    if stack.length = 0 then .error .emptyExpression
    else if 1 < stack.length then .error (.malformedExpression stack.length)
    else .ok (stack.headD 0)

/-- Model of `evaluate_rpn`: run the loop from an empty stack, then apply the
final stack check. -/
def evaluate_rpn (tokens : List String) : Except RPNErr ℚ :=
  finalize (evalLoop 0 tokens [])

/-! ### Basic facts about the literal parser and the operator table -/

lemma parsePyFloat_eq_some {s : String} {p : Bool × Nat × Nat × ℤ}
    (h : parsePyFloatParts s = some p) : parsePyFloat s = some (partsToRat p) := by
  unfold parsePyFloat
  rw [h]
  rfl

lemma parsePyFloat_eq_none {s : String}
    (h : parsePyFloatParts s = none) : parsePyFloat s = none := by
  unfold parsePyFloat
  rw [h]
  rfl

lemma parsePyFloat_empty : parsePyFloat "" = none :=
  parsePyFloat_eq_none (by decide)

lemma parse_ne_empty {t : String} {v : ℚ} (h : parsePyFloat t = some v) : t ≠ "" := by
  intro he
  rw [he, parsePyFloat_empty] at h
  exact Option.noConfusion h

lemma OPERATORS_inv {t : String} {o : Op} (h : OPERATORS t = some o) :
    (t = "+" ∧ o = .add) ∨ (t = "-" ∧ o = .sub) ∨ (t = "*" ∧ o = .mul) ∨
      (t = "/" ∧ o = .div) := by
  unfold OPERATORS at h
  split_ifs at h with h1 h2 h3 h4 <;> simp_all

lemma OPERATORS_ne_empty {t : String} {o : Op} (h : OPERATORS t = some o) : t ≠ "" := by
  rcases OPERATORS_inv h with ⟨rfl, _⟩ | ⟨rfl, _⟩ | ⟨rfl, _⟩ | ⟨rfl, _⟩ <;> decide

lemma OPERATORS_not_number {t : String} {o : Op} (h : OPERATORS t = some o) :
    parsePyFloat t = none := by
  rcases OPERATORS_inv h with ⟨rfl, _⟩ | ⟨rfl, _⟩ | ⟨rfl, _⟩ | ⟨rfl, _⟩ <;>
    exact parsePyFloat_eq_none (by decide)

/-! ### Step lemmas for one loop iteration -/

lemma applyOpE_ok {o : Op} {a b : ℚ} (hguard : o = Op.div → b ≠ 0) :
    applyOpE o a b = .ok (applyOp o a b) := by
  cases o with
  | add => rfl
  | sub => rfl
  | mul => rfl
  | div =>
    have hb : b ≠ 0 := hguard rfl
    simp [applyOpE, applyOp, op_divide, hb]

lemma applyOpE_div_zero {a : ℚ} : applyOpE Op.div a 0 = .error .divisionByZero := by
  simp [applyOpE, op_divide]

lemma stepTok_empty {idx : Nat} {stack : List ℚ} : stepTok idx "" stack = .ok stack := rfl

lemma stepTok_push {idx : Nat} {t : String} {v : ℚ} {stack : List ℚ}
    (h : parsePyFloat t = some v) : stepTok idx t stack = .ok (v :: stack) := by
  unfold stepTok
  rw [if_neg (parse_ne_empty h), h]

lemma stepTok_opApp {idx : Nat} {t : String} {o : Op} {b a : ℚ} {s : List ℚ}
    (ho : OPERATORS t = some o) :
    stepTok idx t (b :: a :: s) =
      match applyOpE o a b with
      | .ok r => .ok (r :: s)
      | .error e => .error (e, s) := by
  unfold stepTok
  rw [if_neg (OPERATORS_ne_empty ho), OPERATORS_not_number ho, ho]

lemma stepTok_op_ok {idx : Nat} {t : String} {o : Op} {b a r : ℚ} {s : List ℚ}
    (ho : OPERATORS t = some o) (hr : applyOpE o a b = .ok r) :
    stepTok idx t (b :: a :: s) = .ok (r :: s) := by
  rw [stepTok_opApp ho, hr]

lemma stepTok_op_err {idx : Nat} {t : String} {o : Op} {b a : ℚ} {s : List ℚ}
    {e : RPNErr} (ho : OPERATORS t = some o) (hr : applyOpE o a b = .error e) :
    stepTok idx t (b :: a :: s) = .error (e, s) := by
  rw [stepTok_opApp ho, hr]

lemma stepTok_insufficient {idx : Nat} {t : String} {o : Op} {stack : List ℚ}
    (ho : OPERATORS t = some o) (hs : stack.length < 2) :
    stepTok idx t stack = .error (.insufficientOperands t idx, stack) := by
  match stack with
  | [] =>
    unfold stepTok
    rw [if_neg (OPERATORS_ne_empty ho), OPERATORS_not_number ho, ho]
  | [x] =>
    unfold stepTok
    rw [if_neg (OPERATORS_ne_empty ho), OPERATORS_not_number ho, ho]
  | b :: a :: s => exact absurd hs (by simp)

lemma stepTok_invalid {idx : Nat} {t : String} {stack : List ℚ}
    (hne : t ≠ "") (hp : parsePyFloat t = none) (ho : OPERATORS t = none) :
    stepTok idx t stack = .error (.invalidToken t idx, stack) := by
  unfold stepTok
  rw [if_neg hne, hp, ho]

/-! ### Loop and finalization lemmas -/

lemma evalLoop_nil {idx : Nat} {stack : List ℚ} : evalLoop idx [] stack = .done stack := rfl

lemma evalLoop_cons_ok {idx : Nat} {t : String} {rest : List String}
    {stack s2 : List ℚ} (h : stepTok idx t stack = .ok s2) :
    evalLoop idx (t :: rest) stack = evalLoop (idx + 1) rest s2 := by
  simp only [evalLoop]
  rw [h]

lemma evalLoop_cons_err {idx : Nat} {t : String} {rest : List String}
    {stack s2 : List ℚ} {e : RPNErr} (h : stepTok idx t stack = .error (e, s2)) :
    evalLoop idx (t :: rest) stack = .failed e s2 := by
  simp only [evalLoop]
  rw [h]

lemma finalize_nilStack : finalize (.done []) = .error .emptyExpression := rfl

lemma finalize_one {v : ℚ} : finalize (.done [v]) = .ok v := rfl

lemma finalize_many {stack : List ℚ} (h : 2 ≤ stack.length) :
    finalize (.done stack) = .error (.malformedExpression stack.length) := by
  simp only [finalize]
  rw [if_neg (by omega), if_pos (by omega)]

lemma finalize_failed {e : RPNErr} {stack : List ℚ} :
    finalize (.failed e stack) = .error e := rfl

/-! ### Decomposition of a run over an appended token list -/

lemma evalLoop_append (xs ys : List String) :
    ∀ (idx : Nat) (stack : List ℚ),
      evalLoop idx (xs ++ ys) stack =
        match evalLoop idx xs stack with
        | .done s => evalLoop (idx + xs.length) ys s
        | .failed e s => .failed e s := by
  induction xs with
  | nil =>
    intro idx stack
    simp [evalLoop]
  | cons t rest ih =>
    intro idx stack
    simp only [List.cons_append, evalLoop]
    cases h : stepTok idx t stack with
    | ok s2 =>
      dsimp only
      simp only [List.append_eq]
      rw [ih (idx + 1) s2]
      simp only [List.length_cons, show idx + 1 + rest.length = idx + (rest.length + 1) by omega]
    | error p => rfl

lemma evalLoop_failed_extend {xs : List String} {e : RPNErr} {s : List ℚ}
    (ys : List String) (idx : Nat) (stack : List ℚ)
    (h : evalLoop idx xs stack = .failed e s) :
    evalLoop idx (xs ++ ys) stack = .failed e s := by
  rw [evalLoop_append, h]

/-! ### Positions of errors, and invariance under empty-token removal -/

/-- Erase the position carried by an error (the only data that depends on
where in the token sequence the error was raised). -/
def stripIdx : RPNErr → RPNErr
  | .insufficientOperands t _ => .insufficientOperands t 0
  | .invalidToken t _ => .invalidToken t 0
  | e => e

/-- Erase error positions in a loop outcome. -/
def stripLoop : LoopResult → LoopResult
  | .done s => .done s
  | .failed e s => .failed (stripIdx e) s

/-- Erase error positions in an evaluation result. -/
def stripResult : Except RPNErr ℚ → Except RPNErr ℚ
  | .ok v => .ok v
  | .error e => .error (stripIdx e)

/-- Predicate used to drop empty-string tokens. -/
def keepTok (t : String) : Bool := !(t == "")

lemma evalLoop_filter (tokens : List String) :
    ∀ (i j : Nat) (stack : List ℚ),
      stripLoop (evalLoop i tokens stack) =
        stripLoop (evalLoop j (tokens.filter keepTok) stack) := by
  induction tokens with
  | nil => intro i j stack; rfl
  | cons t rest ih =>
    intro i j stack
    by_cases ht : t = ""
    · subst ht
      rw [evalLoop_cons_ok stepTok_empty]
      have hdrop : ("" :: rest).filter keepTok = rest.filter keepTok := by
        simp [List.filter_cons, keepTok]
      rw [hdrop]
      exact ih (i + 1) j stack
    · have hkeep : (t :: rest).filter keepTok = t :: rest.filter keepTok := by
        simp [List.filter_cons, keepTok, ht]
      rw [hkeep]
      cases hp : parsePyFloat t with
      | some v =>
        rw [evalLoop_cons_ok (stepTok_push hp), evalLoop_cons_ok (stepTok_push hp)]
        exact ih (i + 1) (j + 1) (v :: stack)
      | none =>
        cases ho : OPERATORS t with
        | none =>
          rw [evalLoop_cons_err (stepTok_invalid ht hp ho),
            evalLoop_cons_err (stepTok_invalid ht hp ho)]
          rfl
        | some o =>
          match stack with
          | [] =>
            rw [evalLoop_cons_err (stepTok_insufficient ho (by simp)),
              evalLoop_cons_err (stepTok_insufficient ho (by simp))]
            rfl
          | [x] =>
            rw [evalLoop_cons_err (stepTok_insufficient ho (by simp)),
              evalLoop_cons_err (stepTok_insufficient ho (by simp))]
            rfl
          | b :: a :: s =>
            cases hr : applyOpE o a b with
            | ok r =>
              rw [evalLoop_cons_ok (stepTok_op_ok ho hr),
                evalLoop_cons_ok (stepTok_op_ok ho hr)]
              exact ih (i + 1) (j + 1) (r :: s)
            | error e =>
              rw [evalLoop_cons_err (stepTok_op_err ho hr),
                evalLoop_cons_err (stepTok_op_err ho hr)]

lemma finalize_strip {r1 r2 : LoopResult} (h : stripLoop r1 = stripLoop r2) :
    stripResult (finalize r1) = stripResult (finalize r2) := by
  cases r1 with
  | done s1 =>
    cases r2 with
    | done s2 =>
      have hs : s1 = s2 := by
        simpa [stripLoop] using h
      rw [hs]
    | failed e2 t2 => exact absurd h (by simp [stripLoop])
  | failed e1 t1 =>
    cases r2 with
    | done s2 => exact absurd h (by simp [stripLoop])
    | failed e2 t2 =>
      have he : stripIdx e1 = stripIdx e2 := by
        have := h
        simp only [stripLoop, LoopResult.failed.injEq] at this
        exact this.1
      simp [finalize, stripResult, he]

lemma evaluate_rpn_strip (tokens : List String) :
    stripResult (evaluate_rpn tokens) =
      stripResult (evaluate_rpn (tokens.filter keepTok)) := by
  unfold evaluate_rpn
  exact finalize_strip (evalLoop_filter tokens 0 0 [])

/-! ### The diagnostic log as a pure side channel -/

/-- The `logger.debug` trace events emitted inside the evaluation loop: a
pushed literal, the two popped operands of an operator, and a pushed
operator result. -/
inductive LogEvent
  | push (v : ℚ)
  | popOperands (b a : ℚ) (token : String)
  | pushResult (v : ℚ)
deriving DecidableEq, Repr

/-- One loop iteration together with the debug events it emits, mirroring
the `logger.debug` calls placed in the loop body (the operand pops are
logged before the operation is applied, so a division-by-zero failure still
emits the pop event). -/
def stepTokLog (idx : Nat) (t : String) (stack : List ℚ) :
    Except (RPNErr × List ℚ) (List ℚ) × List LogEvent :=
  if t = "" then (.ok stack, [])
  else
    match parsePyFloat t with
    | some v => (.ok (v :: stack), [.push v])
    | none =>
      match OPERATORS t with
      | some o =>
        match stack with
        | b :: a :: s =>
          match applyOpE o a b with
          | .ok r => (.ok (r :: s), [.popOperands b a t, .pushResult r])
          | .error e => (.error (e, s), [.popOperands b a t])
        | _ => (.error (.insufficientOperands t idx, stack), [])
      | none => (.error (.invalidToken t idx, stack), [])

/-- The evaluation loop accumulating its debug-log events. -/
def evalLoopLog : Nat → List String → List ℚ → List LogEvent → LoopResult × List LogEvent
  | _, [], stack, log => (.done stack, log)
  | idx, t :: rest, stack, log =>
    match stepTokLog idx t stack with
    | (.ok s2, evs) => evalLoopLog (idx + 1) rest s2 (log ++ evs)
    | (.error p, evs) => (.failed p.1 p.2, log ++ evs)

/-- `evaluate_rpn` together with the debug log it would emit. -/
def evaluate_rpn_logged (tokens : List String) : Except RPNErr ℚ × List LogEvent :=
  (finalize (evalLoopLog 0 tokens [] []).1, (evalLoopLog 0 tokens [] []).2)

lemma stepTokLog_fst (idx : Nat) (t : String) (stack : List ℚ) :
    (stepTokLog idx t stack).1 = stepTok idx t stack := by
  unfold stepTokLog stepTok
  by_cases ht : t = ""
  · rw [if_pos ht, if_pos ht]
  · rw [if_neg ht, if_neg ht]
    cases hp : parsePyFloat t with
    | some v => rfl
    | none =>
      dsimp only
      cases ho : OPERATORS t with
      | none => rfl
      | some o =>
        dsimp only
        match stack with
        | [] => rfl
        | [x] => rfl
        | b :: a :: s =>
          dsimp only
          cases hr : applyOpE o a b with
          | ok r => rfl
          | error e => rfl

lemma evalLoopLog_fst (tokens : List String) :
    ∀ (idx : Nat) (stack : List ℚ) (log : List LogEvent),
      (evalLoopLog idx tokens stack log).1 = evalLoop idx tokens stack := by
  induction tokens with
  | nil => intro idx stack log; rfl
  | cons t rest ih =>
    intro idx stack log
    simp only [evalLoopLog, evalLoop]
    rw [← stepTokLog_fst idx t stack]
    cases h : stepTokLog idx t stack with
    | mk res evs =>
      cases res with
      | ok s2 =>
        dsimp only
        exact ih (idx + 1) s2 (log ++ evs)
      | error p => rfl

/-! ### Token classification -/

/-- The four classification outcomes of one loop iteration, in the priority
order of the `if`/`elif`/`else` chain: empty token, numeric literal,
operator, invalid token. -/
inductive TokenClass
  | emptyTok
  | numberTok (v : ℚ)
  | operatorTok (o : Op)
  | invalidTok
deriving DecidableEq, Repr

/-- The evaluator's per-token classification, in the exact priority order of
its `if`/`elif`/`else` chain. -/
def classify (t : String) : TokenClass :=
  if t = "" then .emptyTok
  else
    match parsePyFloat t with
    | some v => .numberTok v
    | none =>
      match OPERATORS t with
      | some o => .operatorTok o
      | none => .invalidTok

lemma classify_eq_empty {t : String} : classify t = .emptyTok ↔ t = "" := by
  by_cases ht : t = ""
  · simp [classify, ht]
  · simp only [ht, iff_false]
    cases hp : parsePyFloat t with
    | some v => simp [classify, ht, hp]
    | none =>
      cases ho : OPERATORS t with
      | some o => simp [classify, ht, hp, ho]
      | none => simp [classify, ht, hp, ho]

lemma classify_eq_number {t : String} {v : ℚ} :
    classify t = .numberTok v ↔ parsePyFloat t = some v := by
  by_cases ht : t = ""
  · subst ht
    simp [classify, parsePyFloat_empty]
  · cases hp : parsePyFloat t with
    | some w => simp [classify, ht, hp]
    | none =>
      cases ho : OPERATORS t with
      | some o => simp [classify, ht, hp, ho]
      | none => simp [classify, ht, hp, ho]

lemma classify_eq_operator {t : String} {o : Op} :
    classify t = .operatorTok o ↔ OPERATORS t = some o := by
  by_cases ht : t = ""
  · subst ht
    simp [classify, show OPERATORS "" = none by decide]
  · cases hp : parsePyFloat t with
    | some w =>
      simp only [classify, ht, if_neg ht, hp]
      constructor
      · intro h
        exact absurd h (by simp)
      · intro h
        rw [OPERATORS_not_number h] at hp
        exact Option.noConfusion hp
    | none =>
      cases ho : OPERATORS t with
      | some o2 => simp [classify, ht, hp, ho]
      | none => simp [classify, ht, hp, ho]

lemma classify_eq_invalid {t : String} :
    classify t = .invalidTok ↔
      t ≠ "" ∧ parsePyFloat t = none ∧ OPERATORS t = none := by
  by_cases ht : t = ""
  · simp [classify, ht]
  · cases hp : parsePyFloat t with
    | some w => simp [classify, ht, hp]
    | none =>
      cases ho : OPERATORS t with
      | some o => simp [classify, ht, hp, ho]
      | none => simp [classify, ht, hp, ho]

/-! ### Well-formed RPN token sequences -/

/-- Token sequences that are postfix serializations of expression trees whose
literal tokens parse, with every operator well placed, and in which no
division has right-operand value zero.  `WfRPN ts v` states that `ts` is such
a sequence and `v` its left-to-right mathematical value. -/
inductive WfRPN : List String → ℚ → Prop
  | lit {t : String} {v : ℚ} : parsePyFloat t = some v → WfRPN [t] v
  | comb {ts1 ts2 : List String} {t : String} {o : Op} {a b : ℚ} :
      WfRPN ts1 a → WfRPN ts2 b → OPERATORS t = some o → (o = Op.div → b ≠ 0) →
      WfRPN (ts1 ++ ts2 ++ [t]) (applyOp o a b)

/-- Purely structural well-formedness: a postfix serialization of an
expression tree with parseable literal tokens and well-placed operator
tokens (it has N literals and N−1 operators), with no constraint on the
values involved. -/
inductive StructWfRPN : List String → Prop
  | lit {t : String} {v : ℚ} : parsePyFloat t = some v → StructWfRPN [t]
  | comb {ts1 ts2 : List String} {t : String} {o : Op} :
      StructWfRPN ts1 → StructWfRPN ts2 → OPERATORS t = some o →
      StructWfRPN (ts1 ++ ts2 ++ [t])

lemma WfRPN_run {ts : List String} {v : ℚ} (h : WfRPN ts v) :
    ∀ (idx : Nat) (stack : List ℚ), evalLoop idx ts stack = .done (v :: stack) := by
  induction h with
  | lit hp =>
    intro idx stack
    rw [evalLoop_cons_ok (stepTok_push hp), evalLoop_nil]
  | @comb ts1 ts2 t o a b h1 h2 ho hguard ih1 ih2 =>
    intro idx stack
    rw [evalLoop_append, evalLoop_append, ih1 idx stack]
    dsimp only
    rw [ih2 (idx + ts1.length) (a :: stack)]
    dsimp only
    rw [evalLoop_cons_ok (stepTok_op_ok ho (applyOpE_ok hguard)), evalLoop_nil]

lemma WfRPN_evaluate {ts : List String} {v : ℚ} (h : WfRPN ts v) :
    evaluate_rpn ts = .ok v := by
  unfold evaluate_rpn
  rw [WfRPN_run h 0 [], finalize_one]

/-! ### Finalization of concrete loop outcomes -/

lemma evaluate_done_empty {tokens : List String}
    (h : evalLoop 0 tokens [] = .done []) :
    evaluate_rpn tokens = .error .emptyExpression := by
  unfold evaluate_rpn
  rw [h, finalize_nilStack]

lemma evaluate_done_many {tokens : List String} {stack : List ℚ}
    (h : evalLoop 0 tokens [] = .done stack) (h2 : 2 ≤ stack.length) :
    evaluate_rpn tokens = .error (.malformedExpression stack.length) := by
  unfold evaluate_rpn
  rw [h, finalize_many h2]

lemma evaluate_failed {tokens : List String} {e : RPNErr} {s : List ℚ}
    (h : evalLoop 0 tokens [] = .failed e s) :
    evaluate_rpn tokens = .error e := by
  unfold evaluate_rpn
  rw [h, finalize_failed]

/-! ### Concrete literal and operator facts -/

lemma parse_0 : parsePyFloat "0" = some 0 := by
  rw [parsePyFloat_eq_some (by decide : parsePyFloatParts "0" = some (false, 0, 0, 0))]
  norm_num [partsToRat, tenZPow]

lemma parse_1 : parsePyFloat "1" = some 1 := by
  rw [parsePyFloat_eq_some (by decide : parsePyFloatParts "1" = some (false, 1, 0, 0))]
  norm_num [partsToRat, tenZPow]

lemma parse_2 : parsePyFloat "2" = some 2 := by
  rw [parsePyFloat_eq_some (by decide : parsePyFloatParts "2" = some (false, 2, 0, 0))]
  norm_num [partsToRat, tenZPow]

lemma parse_3 : parsePyFloat "3" = some 3 := by
  rw [parsePyFloat_eq_some (by decide : parsePyFloatParts "3" = some (false, 3, 0, 0))]
  norm_num [partsToRat, tenZPow]

lemma parse_4 : parsePyFloat "4" = some 4 := by
  rw [parsePyFloat_eq_some (by decide : parsePyFloatParts "4" = some (false, 4, 0, 0))]
  norm_num [partsToRat, tenZPow]

lemma parse_5 : parsePyFloat "5" = some 5 := by
  rw [parsePyFloat_eq_some (by decide : parsePyFloatParts "5" = some (false, 5, 0, 0))]
  norm_num [partsToRat, tenZPow]

lemma parse_7 : parsePyFloat "7" = some 7 := by
  rw [parsePyFloat_eq_some (by decide : parsePyFloatParts "7" = some (false, 7, 0, 0))]
  norm_num [partsToRat, tenZPow]

lemma parse_10 : parsePyFloat "10" = some 10 := by
  rw [parsePyFloat_eq_some (by decide : parsePyFloatParts "10" = some (false, 10, 0, 0))]
  norm_num [partsToRat, tenZPow]

lemma parse_3p5 : parsePyFloat "3.5" = some (7 / 2) := by
  rw [parsePyFloat_eq_some (by decide : parsePyFloatParts "3.5" = some (false, 35, 1, 0))]
  norm_num [partsToRat, tenZPow]

lemma parse_amp : parsePyFloat "&" = none :=
  parsePyFloat_eq_none (by decide)

lemma OPERATORS_plus : OPERATORS "+" = some .add := by decide

lemma OPERATORS_minus : OPERATORS "-" = some .sub := by decide

lemma OPERATORS_star : OPERATORS "*" = some .mul := by decide

lemma OPERATORS_slash : OPERATORS "/" = some .div := by decide

/-! ### Runs of the evaluator on the specified examples -/

lemma run_3_5_plus : evaluate_rpn ["3", "5", "+"] = .ok 8 := by
  unfold evaluate_rpn
  rw [evalLoop_cons_ok (stepTok_push parse_3),
    evalLoop_cons_ok (stepTok_push parse_5),
    evalLoop_cons_ok (stepTok_op_ok OPERATORS_plus (applyOpE_ok (by simp))),
    evalLoop_nil, finalize_one]
  norm_num [applyOp, op_add]

lemma run_4_7_plus_3_star : evaluate_rpn ["4", "7", "+", "3", "*"] = .ok 33 := by
  unfold evaluate_rpn
  rw [evalLoop_cons_ok (stepTok_push parse_4),
    evalLoop_cons_ok (stepTok_push parse_7),
    evalLoop_cons_ok (stepTok_op_ok OPERATORS_plus (applyOpE_ok (by simp))),
    evalLoop_cons_ok (stepTok_push parse_3),
    evalLoop_cons_ok (stepTok_op_ok OPERATORS_star (applyOpE_ok (by simp))),
    evalLoop_nil, finalize_one]
  norm_num [applyOp, op_add, op_multiply]

lemma run_3_4_7_plus_star : evaluate_rpn ["3", "4", "7", "+", "*"] = .ok 33 := by
  unfold evaluate_rpn
  rw [evalLoop_cons_ok (stepTok_push parse_3),
    evalLoop_cons_ok (stepTok_push parse_4),
    evalLoop_cons_ok (stepTok_push parse_7),
    evalLoop_cons_ok (stepTok_op_ok OPERATORS_plus (applyOpE_ok (by simp))),
    evalLoop_cons_ok (stepTok_op_ok OPERATORS_star (applyOpE_ok (by simp))),
    evalLoop_nil, finalize_one]
  norm_num [applyOp, op_add, op_multiply]

lemma run_10_4_plus_2_minus : evaluate_rpn ["10", "4", "+", "2", "-"] = .ok 12 := by
  unfold evaluate_rpn
  rw [evalLoop_cons_ok (stepTok_push parse_10),
    evalLoop_cons_ok (stepTok_push parse_4),
    evalLoop_cons_ok (stepTok_op_ok OPERATORS_plus (applyOpE_ok (by simp))),
    evalLoop_cons_ok (stepTok_push parse_2),
    evalLoop_cons_ok (stepTok_op_ok OPERATORS_minus (applyOpE_ok (by simp))),
    evalLoop_nil, finalize_one]
  norm_num [applyOp, op_add, op_subtract]

lemma run_2_10_4_plus_minus : evaluate_rpn ["2", "10", "4", "+", "-"] = .ok (-12) := by
  unfold evaluate_rpn
  rw [evalLoop_cons_ok (stepTok_push parse_2),
    evalLoop_cons_ok (stepTok_push parse_10),
    evalLoop_cons_ok (stepTok_push parse_4),
    evalLoop_cons_ok (stepTok_op_ok OPERATORS_plus (applyOpE_ok (by simp))),
    evalLoop_cons_ok (stepTok_op_ok OPERATORS_minus (applyOpE_ok (by simp))),
    evalLoop_nil, finalize_one]
  norm_num [applyOp, op_add, op_subtract]

lemma run_3p5_2_star : evaluate_rpn ["3.5", "2", "*"] = .ok 7 := by
  unfold evaluate_rpn
  rw [evalLoop_cons_ok (stepTok_push parse_3p5),
    evalLoop_cons_ok (stepTok_push parse_2),
    evalLoop_cons_ok (stepTok_op_ok OPERATORS_star (applyOpE_ok (by simp))),
    evalLoop_nil, finalize_one]
  norm_num [applyOp, op_multiply]

lemma run_10_4_minus : evaluate_rpn ["10", "4", "-"] = .ok 6 := by
  unfold evaluate_rpn
  rw [evalLoop_cons_ok (stepTok_push parse_10),
    evalLoop_cons_ok (stepTok_push parse_4),
    evalLoop_cons_ok (stepTok_op_ok OPERATORS_minus (applyOpE_ok (by simp))),
    evalLoop_nil, finalize_one]
  norm_num [applyOp, op_subtract]

lemma run_4_0_slash : evaluate_rpn ["4", "0", "/"] = .error .divisionByZero := by
  unfold evaluate_rpn
  rw [evalLoop_cons_ok (stepTok_push parse_4),
    evalLoop_cons_ok (stepTok_push parse_0),
    evalLoop_cons_err (stepTok_op_err OPERATORS_slash applyOpE_div_zero),
    finalize_failed]

lemma run_1_0_slash : evaluate_rpn ["1", "0", "/"] = .error .divisionByZero := by
  unfold evaluate_rpn
  rw [evalLoop_cons_ok (stepTok_push parse_1),
    evalLoop_cons_ok (stepTok_push parse_0),
    evalLoop_cons_err (stepTok_op_err OPERATORS_slash applyOpE_div_zero),
    finalize_failed]

lemma run_3_plus : evaluate_rpn ["3", "+"] = .error (.insufficientOperands "+" 1) := by
  unfold evaluate_rpn
  rw [evalLoop_cons_ok (stepTok_push parse_3),
    evalLoop_cons_err (stepTok_insufficient OPERATORS_plus (by simp)),
    finalize_failed]

lemma run_nil : evaluate_rpn [] = .error .emptyExpression := rfl

lemma run_2_3_4_plus : evaluate_rpn ["2", "3", "4", "+"] = .error (.malformedExpression 2) := by
  unfold evaluate_rpn
  rw [evalLoop_cons_ok (stepTok_push parse_2),
    evalLoop_cons_ok (stepTok_push parse_3),
    evalLoop_cons_ok (stepTok_push parse_4),
    evalLoop_cons_ok (stepTok_op_ok OPERATORS_plus (applyOpE_ok (by simp))),
    evalLoop_nil, finalize_many (by simp)]
  rfl

lemma run_3_5_amp : evaluate_rpn ["3", "5", "&"] = .error (.invalidToken "&" 2) := by
  unfold evaluate_rpn
  rw [evalLoop_cons_ok (stepTok_push parse_3),
    evalLoop_cons_ok (stepTok_push parse_5),
    evalLoop_cons_err (stepTok_invalid (by decide) parse_amp (by decide)),
    finalize_failed]

lemma run_3_gap_5_plus : evaluate_rpn ["3", "", "5", "+"] = .ok 8 := by
  unfold evaluate_rpn
  rw [evalLoop_cons_ok (stepTok_push parse_3),
    evalLoop_cons_ok stepTok_empty,
    evalLoop_cons_ok (stepTok_push parse_5),
    evalLoop_cons_ok (stepTok_op_ok OPERATORS_plus (applyOpE_ok (by simp))),
    evalLoop_nil, finalize_one]
  norm_num [applyOp, op_add]

/-! ### The claims -/

/-- Claim C1, counterexample to the claim as stated: `["1", "0", "/"]` is a
well-formed RPN sequence in the structural sense (two numeric-literal tokens
and one well-placed binary operator token), yet `evaluate_rpn` does not
succeed on it: it fails with `DivisionByZero`. -/
theorem claim_C1_cex :
    StructWfRPN ["1", "0", "/"] ∧
      (["1", "0", "/"].countP is_number = 2 ∧
        ["1", "0", "/"].countP (fun t => (OPERATORS t).isSome) = 1) ∧
      evaluate_rpn ["1", "0", "/"] = .error .divisionByZero :=
  ⟨StructWfRPN.comb (.lit parse_1) (.lit parse_0) OPERATORS_slash,
    ⟨by decide, by decide⟩, run_1_0_slash⟩

/-- Claim C1, amended: for every token sequence that is a well-formed RPN
expression with N numeric-literal tokens and N−1 well-placed binary operator
tokens, *in which no division has a zero right-operand value*, `evaluate_rpn`
succeeds and returns the left-to-right-associated mathematical result; and
the six listed example evaluations hold. -/
theorem claim_C1 :
    (∀ (ts : List String) (v : ℚ), WfRPN ts v → evaluate_rpn ts = .ok v) ∧
      evaluate_rpn ["3", "5", "+"] = .ok 8 ∧
      evaluate_rpn ["4", "7", "+", "3", "*"] = .ok 33 ∧
      evaluate_rpn ["3", "4", "7", "+", "*"] = .ok 33 ∧
      evaluate_rpn ["10", "4", "+", "2", "-"] = .ok 12 ∧
      evaluate_rpn ["2", "10", "4", "+", "-"] = .ok (-12) ∧
      evaluate_rpn ["3.5", "2", "*"] = .ok 7 :=
  ⟨fun _ _ h => WfRPN_evaluate h, run_3_5_plus, run_4_7_plus_3_star,
    run_3_4_7_plus_star, run_10_4_plus_2_minus, run_2_10_4_plus_minus,
    run_3p5_2_star⟩

/-- Witness for C1: the general part applied to the concrete well-formed
sequence `["2", "2", "+"]`. -/
theorem claim_C1_witness : evaluate_rpn ["2", "2", "+"] = .ok 4 := by
  have h := claim_C1.1 ["2", "2", "+"] (applyOp Op.add 2 2)
    (WfRPN.comb (.lit parse_2) (.lit parse_2) OPERATORS_plus (by simp))
  rw [h]
  norm_num [applyOp, op_add]

/-- Claim C2, counterexample to the claim as stated: the empty-stack failure
and the leftover-values failure are raised with the *same* Python exception
class (the base `RPNError`), not with two distinct classified kinds, so a
caller distinguishing failures by exception class cannot tell them apart. -/
theorem claim_C2_cex :
    evaluate_rpn [] = .error .emptyExpression ∧
      evaluate_rpn ["2", "3", "4", "+"] = .error (.malformedExpression 2) ∧
      excClassOf .emptyExpression = excClassOf (.malformedExpression 2) :=
  ⟨run_nil, run_2_3_4_plus, rfl⟩

/-- Claim C2, amended: the evaluator's failures form a closed taxonomy of
five trigger conditions under the common `RPNError` classification, of which
`InvalidToken`, `InsufficientOperands` and `DivisionByZero` carry their own
exception subclass, while the empty-stack and leftover-values conditions both
raise the base `RPNError` class directly (the leftover case carrying the
count of leftover values). -/
theorem claim_C2 :
    (∀ tokens : List String, evalLoop 0 tokens [] = .done [] →
        evaluate_rpn tokens = .error .emptyExpression) ∧
      (∀ (tokens : List String) (stack : List ℚ),
        evalLoop 0 tokens [] = .done stack → 2 ≤ stack.length →
        evaluate_rpn tokens = .error (.malformedExpression stack.length)) ∧
      excClassOf .emptyExpression = .rpnError ∧
      (∀ n : Nat, excClassOf (.malformedExpression n) = .rpnError) ∧
      (∀ (t : String) (i : Nat),
        excClassOf (.insufficientOperands t i) = .insufficientOperandsError) ∧
      excClassOf .divisionByZero = .divisionByZeroError ∧
      (∀ (t : String) (i : Nat), excClassOf (.invalidToken t i) = .invalidTokenError) :=
  ⟨fun _ h => evaluate_done_empty h, fun _ _ h h2 => evaluate_done_many h h2,
    rfl, fun _ => rfl, fun _ _ => rfl, rfl, fun _ _ => rfl⟩

/-- Witness for C2: the empty-stack case applied to the empty token list. -/
theorem claim_C2_witness : evaluate_rpn [] = .error .emptyExpression :=
  claim_C2.1 [] rfl

/-- Claim C3: applying `/` with at least two stacked values and a zero top
value fails with `DivisionByZero`; at the failure point both operands are
popped and nothing is pushed back, and the loop failure becomes the
evaluation's terminal error. -/
theorem claim_C3 :
    (∀ (idx : Nat) (rest : List String) (a : ℚ) (s : List ℚ),
        evalLoop idx ("/" :: rest) (0 :: a :: s) = .failed .divisionByZero s) ∧
      (∀ (tokens : List String) (e : RPNErr) (s : List ℚ),
        evalLoop 0 tokens [] = .failed e s → evaluate_rpn tokens = .error e) ∧
      evaluate_rpn ["4", "0", "/"] = .error .divisionByZero :=
  ⟨fun _ _ _ _ => evalLoop_cons_err (stepTok_op_err OPERATORS_slash applyOpE_div_zero),
    fun _ _ _ h => evaluate_failed h, run_4_0_slash⟩

/-- Witness for C3: the division-by-zero step on a concrete stack, and the
error propagation applied to the concrete run of `["1", "0", "/"]`. -/
theorem claim_C3_witness :
    evalLoop 5 ["/"] [(0 : ℚ), 9] = .failed .divisionByZero [] ∧
      evaluate_rpn ["1", "0", "/"] = .error .divisionByZero :=
  ⟨claim_C3.1 5 [] 9 [],
    claim_C3.2.1 ["1", "0", "/"] .divisionByZero []
      (by
        rw [evalLoop_cons_ok (stepTok_push parse_1),
          evalLoop_cons_ok (stepTok_push parse_0)]
        exact claim_C3.1 2 [] 1 [])⟩

/-- Claim C4: an operator token met with fewer than two stacked values fails
immediately with `InsufficientOperands` carrying the operator symbol and its
position, and the stack at failure is exactly the stack from before the
operator (nothing is consumed). -/
theorem claim_C4 :
    (∀ (idx : Nat) (t : String) (o : Op) (rest : List String) (stack : List ℚ),
        OPERATORS t = some o → stack.length < 2 →
        evalLoop idx (t :: rest) stack = .failed (.insufficientOperands t idx) stack) ∧
      evaluate_rpn ["3", "+"] = .error (.insufficientOperands "+" 1) :=
  ⟨fun _ _ _ _ _ ho hs => evalLoop_cons_err (stepTok_insufficient ho hs), run_3_plus⟩

/-- Witness for C4: the insufficient-operand failure on an empty stack. -/
theorem claim_C4_witness :
    evalLoop 0 ["+"] ([] : List ℚ) = .failed (.insufficientOperands "+" 0) [] :=
  claim_C4.1 0 "+" Op.add [] [] OPERATORS_plus (by simp)

/-- Claim C5: per-token classification follows exactly the priority order
empty / number / operator / invalid, each case characterized by a condition
on the raw token alone (so the cases are mutually exclusive and total); an
invalid token fails immediately with `InvalidToken` carrying the token text
and its zero-based position, and `["3", "5", "&"]` fails with
`InvalidToken "&" 2`. -/
theorem claim_C5 :
    (∀ t : String, classify t = .emptyTok ↔ t = "") ∧
      (∀ (t : String) (v : ℚ), classify t = .numberTok v ↔ parsePyFloat t = some v) ∧
      (∀ (t : String) (o : Op), classify t = .operatorTok o ↔ OPERATORS t = some o) ∧
      (∀ t : String, classify t = .invalidTok ↔
        (t ≠ "" ∧ parsePyFloat t = none ∧ OPERATORS t = none)) ∧
      (∀ (idx : Nat) (t : String) (rest : List String) (stack : List ℚ),
        classify t = .invalidTok →
        evalLoop idx (t :: rest) stack = .failed (.invalidToken t idx) stack) ∧
      evaluate_rpn ["3", "5", "&"] = .error (.invalidToken "&" 2) := by
  refine ⟨fun _ => classify_eq_empty, fun _ _ => classify_eq_number,
    fun _ _ => classify_eq_operator, fun _ => classify_eq_invalid, ?_, run_3_5_amp⟩
  intro idx t rest stack h
  obtain ⟨h1, h2, h3⟩ := classify_eq_invalid.mp h
  exact evalLoop_cons_err (stepTok_invalid h1 h2 h3)

/-- Witness for C5: the invalid-token dispatch applied to the token `"&"`. -/
theorem claim_C5_witness :
    evalLoop 0 ["&"] ([] : List ℚ) = .failed (.invalidToken "&" 0) [] :=
  claim_C5.2.2.2.2.1 0 "&" [] []
    (classify_eq_invalid.mpr ⟨by decide, parse_amp, by decide⟩)

/-- Claim C6: an applied operator pops the top value as right operand `b` and
the next as left operand `a` and pushes the left-to-right application
(`a+b`, `a-b`, `a*b`, `a/b`); in particular `["10", "4", "-"]` evaluates to
`6`, not `-6`. -/
theorem claim_C6 :
    (∀ (idx : Nat) (t : String) (o : Op) (rest : List String) (a b : ℚ) (s : List ℚ),
        OPERATORS t = some o → ¬(o = Op.div ∧ b = 0) →
        evalLoop idx (t :: rest) (b :: a :: s) =
          evalLoop (idx + 1) rest (applyOp o a b :: s)) ∧
      (∀ a b : ℚ, applyOp Op.add a b = a + b ∧ applyOp Op.sub a b = a - b ∧
        applyOp Op.mul a b = a * b ∧ applyOp Op.div a b = a / b) ∧
      evaluate_rpn ["10", "4", "-"] = .ok 6 ∧
      (Except.ok 6 : Except RPNErr ℚ) ≠ .ok (-6) := by
  refine ⟨?_, fun _ _ => ⟨rfl, rfl, rfl, rfl⟩, run_10_4_minus, by norm_num⟩
  intro idx t o rest a b s ho hnd
  exact evalLoop_cons_ok (stepTok_op_ok ho (applyOpE_ok fun hdiv hb => hnd ⟨hdiv, hb⟩))

/-- Witness for C6: the pop-order step applied to `"-"` on the concrete stack
holding 4 above 10, giving 10 − 4 = 6. -/
theorem claim_C6_witness : evalLoop 0 ["-"] [(4 : ℚ), 10] = .done [6] := by
  have h := claim_C6.1 0 "-" Op.sub [] 10 4 [] OPERATORS_minus (by simp)
  rw [h, evalLoop_nil]
  norm_num [applyOp, op_subtract]

/-- Claim C7: empty-string tokens never change the outcome: for every token
sequence the evaluation result equals (up to error positions) that of the
sequence with all empty tokens removed, and the token list of
`"3  5 +"` evaluates exactly as that of `"3 5 +"`. -/
theorem claim_C7 :
    (∀ tokens : List String,
        stripResult (evaluate_rpn tokens) =
          stripResult (evaluate_rpn (tokens.filter keepTok))) ∧
      evaluate_rpn ["3", "", "5", "+"] = evaluate_rpn ["3", "5", "+"] :=
  ⟨evaluate_rpn_strip, by rw [run_3_gap_5_plus, run_3_5_plus]⟩

/-- Claim C8: errors are terminal and the first error wins: once the loop
fails on a prefix, any continuation of the token sequence evaluates to that
same error, so two sequences agreeing up to and including the first failing
token yield the same error. -/
theorem claim_C8 :
    (∀ (pre rest : List String) (e : RPNErr) (s : List ℚ),
        evalLoop 0 pre [] = .failed e s → evaluate_rpn (pre ++ rest) = .error e) ∧
      (∀ (pre r1 r2 : List String) (e : RPNErr) (s : List ℚ),
        evalLoop 0 pre [] = .failed e s →
        evaluate_rpn (pre ++ r1) = evaluate_rpn (pre ++ r2)) := by
  constructor
  · intro pre rest e s h
    exact evaluate_failed (evalLoop_failed_extend rest 0 [] h)
  · intro pre r1 r2 e s h
    rw [evaluate_failed (evalLoop_failed_extend r1 0 [] h),
      evaluate_failed (evalLoop_failed_extend r2 0 [] h)]

/-- Witness for C8: the failing prefix `["3", "+"]` decides the outcome of
`["3", "+", "9"]`. -/
theorem claim_C8_witness :
    evaluate_rpn ["3", "+", "9"] = .error (.insufficientOperands "+" 1) :=
  claim_C8.1 ["3", "+"] ["9"] (.insufficientOperands "+" 1) [3]
    (by
      rw [evalLoop_cons_ok (stepTok_push parse_3)]
      exact evalLoop_cons_err (stepTok_insufficient OPERATORS_plus (by simp)))

/-- Claim C9: evaluation is deterministic and logging is a pure side channel:
the logged evaluator returns the same result as the plain one, and identical
inputs give identical results. -/
theorem claim_C9 :
    (∀ tokens : List String, (evaluate_rpn_logged tokens).1 = evaluate_rpn tokens) ∧
      (∀ t1 t2 : List String, t1 = t2 → evaluate_rpn t1 = evaluate_rpn t2) :=
  ⟨fun tokens => by
      unfold evaluate_rpn_logged evaluate_rpn
      rw [evalLoopLog_fst tokens 0 [] []],
    fun _ _ h => by rw [h]⟩

/-- Witness for C9: determinism applied to two identical concrete inputs. -/
theorem claim_C9_witness :
    evaluate_rpn ["3", "5", "+"] = evaluate_rpn ["3", "5", "+"] :=
  claim_C9.2 ["3", "5", "+"] ["3", "5", "+"] rfl

/-- Claim C10: on every finite token list, `evaluate_rpn` terminates with
either a numeric value or an error of the closed `RPNErr` classification
(being a total Lean function into `Except RPNErr ℚ`), and `is_number` is
exactly the success flag of the literal parser (the parse failure is caught
and routed into classification, never escaping). -/
theorem claim_C10 :
    (∀ tokens : List String,
        (∃ v : ℚ, evaluate_rpn tokens = .ok v) ∨
          (∃ e : RPNErr, evaluate_rpn tokens = .error e)) ∧
      (∀ t : String, is_number t = (parsePyFloat t).isSome) := by
  constructor
  · intro tokens
    cases h : evaluate_rpn tokens with
    | ok v => exact Or.inl ⟨v, rfl⟩
    | error e => exact Or.inr ⟨e, rfl⟩
  · intro t
    rfl
